import Mathlib

/-!
Shallow embedding of the car_web_client dashboard components
(src/components/VideoStream.vue, src/components/MetadataPanel.vue and the
index page wiring them together).

The two stream consumers are single-threaded event-driven components; we
model each as an explicit state record together with a step function over
the events the host runtime can dispatch (start, inbound message with its
JSON-parse outcome, transport error, open confirmation, staleness-timer
firing, stop, toggle).  Timers and EventSource connections are modelled by
identifiers: the state keeps the handle the component stores
(timeoutId / frameSource / metadataSource) and, as environment
bookkeeping, the list of timers still pending and of connections still
open, so that invariants such as "at most one pending timer" are
expressible.  JSON parsing is external input: an inbound message event
carries the outcome of JSON.parse on its payload.
-/

set_option autoImplicit false

/-- A JSON value, the result of a successful JSON.parse on a stream payload. -/
inductive Json where
  | null : Json
  | bool (b : Bool) : Json
  | num (q : Rat) : Json
  | str (s : String) : Json
  | arr (elems : List Json) : Json
  | obj (entries : List (String × Json)) : Json

/-- Notifications emitted by the components via emit(...). -/
inductive Emit where
  | error (msg : String)
  | connected
  | disconnected
  | statusChanged (isRunning : Bool)
  | dataReceived (data : Json)

/-- A timer scheduled with setTimeout: its handle and its delay in ms. -/
structure TimerRec where
  id : Nat
  delay : Nat
deriving DecidableEq

/-- Outcome of JSON.parse on a frame-stream payload: `ok frame` when the
payload parsed and `frame` is the frame field, `err` when JSON.parse threw. -/
inductive ParseResult where
  | ok (frame : String)
  | err

/-- State of the VideoStream component (refs and module-level lets of
VideoStream.vue), plus environment bookkeeping: `pending` is the list of
setTimeout timers scheduled and neither fired nor cancelled, `openConns`
the list of EventSource connections opened and not closed. -/
structure VideoState where
  isVideoUnavailable : Bool
  hasLastFrame : Bool
  isRunning : Bool
  timeoutId : Option Nat
  frameSource : Option Nat
  displayedSrc : Option String
  nextTimerId : Nat
  pending : List TimerRec
  nextConnId : Nat
  openConns : List Nat
deriving DecidableEq

/-- Events the host runtime can dispatch to the VideoStream component. -/
inductive VEvent where
  | start
  | message (p : ParseResult) (elemPresent : Bool)
  | transportError
  | openOk
  | timerFire (id : Nat)
  | stop
  | toggle

namespace VideoStream

/-- Initial state: refs start false/null, nothing scheduled or open. -/
def initState : VideoState :=
  { isVideoUnavailable := false
    hasLastFrame := false
    isRunning := false
    timeoutId := none
    frameSource := none
    displayedSrc := none
    nextTimerId := 0
    pending := []
    nextConnId := 0
    openConns := [] }

/-- `frameSource.close()`: the connection held in `frameSource` (if any)
is removed from the open connections.  The handle itself is not changed
here; callers reassign or null it as the source does. -/
def closeConn (s : VideoState) : VideoState :=
  match s.frameSource with
  | some c => { s with openConns := s.openConns.erase c }
  | none => s

/-- `if (timeoutId) clearTimeout(timeoutId)`: cancel the timer whose handle
is stored, if one is stored.  The handle itself is left as the source
leaves it at this point. -/
def clearPending (s : VideoState) : VideoState :=
  match s.timeoutId with
  | some t => { s with pending := s.pending.filter (fun r => r.id != t) }
  | none => s

/-- `timeoutId = setTimeout(..., timeoutMs)`: schedule a fresh timer and
store its handle. -/
def scheduleTimeout (timeoutMs : Nat) (s : VideoState) : VideoState :=
  { s with pending := s.pending ++ [⟨s.nextTimerId, timeoutMs⟩]
           timeoutId := some s.nextTimerId
           nextTimerId := s.nextTimerId + 1 }

/-- `startStream()`: close any existing connection, open a new EventSource,
mark running, emit statusChanged(true). -/
def startStream (s : VideoState) : VideoState × List Emit :=
  let s1 := closeConn s
  ({ s1 with frameSource := some s1.nextConnId
             openConns := s1.openConns ++ [s1.nextConnId]
             nextConnId := s1.nextConnId + 1
             isRunning := true },
   [Emit.statusChanged true])

/-- The onmessage handler.  `p` is the outcome of JSON.parse on the payload,
`elemPresent` whether document.getElementById("frame") returned an element,
`timeoutMs` is props.timeout.  On parse success: render into the element if
present (setting hasLastFrame and clearing isVideoUnavailable only then),
then cancel the stored timer and schedule a fresh one.  On parse failure:
set isVideoUnavailable and emit an error. -/
def onmessage (timeoutMs : Nat) (p : ParseResult) (elemPresent : Bool)
    (s : VideoState) : VideoState × List Emit :=
  match p with
  | .ok frame =>
      let s1 :=
        if elemPresent then
          { s with displayedSrc := some ("data:image/jpeg;base64," ++ frame)
                   hasLastFrame := true
                   isVideoUnavailable := false }
        else s
      (scheduleTimeout timeoutMs (clearPending s1), [])
  | .err =>
      ({ s with isVideoUnavailable := true },
       [Emit.error "Failed to parse frame data"])

/-- The onerror handler: transport-level EventSource error. -/
def onTransportError (s : VideoState) : VideoState × List Emit :=
  ({ s with isVideoUnavailable := true },
   [Emit.error "EventSource connection error"])

/-- The onopen handler: connection-open confirmation. -/
def onOpen (s : VideoState) : VideoState × List Emit :=
  ({ s with isVideoUnavailable := false }, [Emit.connected])

/-- A scheduled timer fires.  Only a timer that is still pending can fire
(the runtime never runs a cancelled timer's callback); its callback sets
isVideoUnavailable and emits disconnected. -/
def fireTimer (t : Nat) (s : VideoState) : VideoState × List Emit :=
  if s.pending.any (fun r => r.id == t) then
    ({ s with pending := s.pending.filter (fun r => r.id != t)
              isVideoUnavailable := true },
     [Emit.disconnected])
  else (s, [])

/-- `stopStream()`: close the connection and null its handle, cancel any
pending timer and null its handle, mark not running and unavailable, emit
statusChanged(false) and disconnected. -/
def stopStream (s : VideoState) : VideoState × List Emit :=
  let s1 := closeConn s
  let s2 := clearPending { s1 with frameSource := none }
  ({ s2 with timeoutId := none
             isRunning := false
             isVideoUnavailable := true },
   [Emit.statusChanged false, Emit.disconnected])

/-- `toggleStream()`: stop if running, else start. -/
def toggleStream (s : VideoState) : VideoState × List Emit :=
  if s.isRunning then stopStream s else startStream s

/-- One dispatch of the event loop to the VideoStream component. -/
def vstep (timeoutMs : Nat) (s : VideoState) : VEvent → VideoState × List Emit
  | .start => startStream s
  | .message p elemPresent => onmessage timeoutMs p elemPresent s
  | .transportError => onTransportError s
  | .openOk => onOpen s
  | .timerFire t => fireTimer t s
  | .stop => stopStream s
  | .toggle => toggleStream s

/-- The stale-timeout invariant: the pending-timer list is empty or is the
single timer whose handle is stored in timeoutId, and a stored handle is
the most recently allocated one. -/
def TimerInv (s : VideoState) : Prop :=
  (s.pending = [] ∨ ∃ t d, s.timeoutId = some t ∧ s.pending = [⟨t, d⟩]) ∧
  (∀ t, s.timeoutId = some t → t + 1 = s.nextTimerId)

/-- The connection invariant: no connection is open, or exactly the one
whose handle is stored in frameSource is. -/
def ConnInv (s : VideoState) : Prop :=
  s.openConns = [] ∨ ∃ c, s.frameSource = some c ∧ s.openConns = [c]

end VideoStream

/-- State of the MetadataPanel stream consumer (refs and module-level lets
of MetadataPanel.vue), plus environment bookkeeping of open connections. -/
structure MetaState where
  metadata : Option Json
  isRunning : Bool
  metadataSource : Option Nat
  nextConnId : Nat
  openConns : List Nat

/-- Events the host runtime can dispatch to the MetadataPanel consumer.
A message event carries the outcome of JSON.parse on its payload:
some value on success, none when JSON.parse threw. -/
inductive MEvent where
  | start
  | message (p : Option Json)
  | transportError
  | stop
  | toggle

namespace MetadataPanel

/-- Initial state: metadata null, not running, no connection. -/
def initState : MetaState :=
  { metadata := none
    isRunning := false
    metadataSource := none
    nextConnId := 0
    openConns := [] }

/-- `metadataSource.close()`: remove the held connection from the open ones. -/
def closeConn (s : MetaState) : MetaState :=
  match s.metadataSource with
  | some c => { s with openConns := s.openConns.erase c }
  | none => s

/-- `startStream()`: close any existing connection, open a new EventSource,
mark running, emit statusChanged(true). -/
def startStream (s : MetaState) : MetaState × List Emit :=
  let s1 := closeConn s
  ({ s1 with metadataSource := some s1.nextConnId
             openConns := s1.openConns ++ [s1.nextConnId]
             nextConnId := s1.nextConnId + 1
             isRunning := true },
   [Emit.statusChanged true])

/-- The onmessage handler: on parse success the snapshot is replaced
wholesale and dataReceived carries the new value; on parse failure an
error is emitted and nothing else changes. -/
def onmessage (p : Option Json) (s : MetaState) : MetaState × List Emit :=
  match p with
  | some data => ({ s with metadata := some data }, [Emit.dataReceived data])
  | none => (s, [Emit.error "Failed to parse metadata"])

/-- The onerror handler: transport-level EventSource error. -/
def onTransportError (s : MetaState) : MetaState × List Emit :=
  (s, [Emit.error "Metadata connection error"])

/-- `stopStream()`: close the connection and null its handle, mark not
running, emit statusChanged(false). -/
def stopStream (s : MetaState) : MetaState × List Emit :=
  let s1 := closeConn s
  ({ s1 with metadataSource := none, isRunning := false },
   [Emit.statusChanged false])

/-- `toggleStream()`: stop if running, else start. -/
def toggleStream (s : MetaState) : MetaState × List Emit :=
  if s.isRunning then stopStream s else startStream s

/-- One dispatch of the event loop to the MetadataPanel consumer. -/
def mstep (s : MetaState) : MEvent → MetaState × List Emit
  | .start => startStream s
  | .message p => onmessage p s
  | .transportError => onTransportError s
  | .stop => stopStream s
  | .toggle => toggleStream s

/-- The connection invariant: no connection is open, or exactly the one
whose handle is stored in metadataSource is. -/
def ConnInv (s : MetaState) : Prop :=
  s.openConns = [] ∨ ∃ c, s.metadataSource = some c ∧ s.openConns = [c]

end MetadataPanel

/-- The three-valued aggressive-mode enumeration. -/
inductive Mode where
  | idle
  | chasing
  | explosion
deriving DecidableEq

/-- The wire spelling of a mode value. -/
def modeString : Mode → String
  | .idle => "idle"
  | .chasing => "chasing"
  | .explosion => "explosion"

/-- The mode cycle used by toggleAggressiveMode:
const modes = ['idle', 'chasing', 'explosion']. -/
def modes : List Mode := [.idle, .chasing, .explosion]

/-- modes[(modes.indexOf(current) + 1) % modes.length]. -/
def nextMode (m : Mode) : Mode :=
  modes.getD ((modes.indexOf m + 1) % modes.length) .idle

/-- An HTTP request issued through fetch. -/
structure Request where
  url : String
  method : String
  body : Option String
deriving DecidableEq

/-- Outcome of an awaited fetch: a response with response.ok true, a
response with response.ok false carrying its status, or fetch itself
rejecting with an Error carrying a message. -/
inductive FetchOutcome where
  | success
  | httpFailure (status : Nat)
  | networkFailure (msg : String)

/-- Local state the control operations read and write: the aggressiveMode,
isResetting and isTogglingMode refs, and the isRunning ref they echo in
statusChanged. -/
structure PanelState where
  aggressiveMode : Mode
  isResetting : Bool
  isTogglingMode : Bool
  isRunning : Bool
deriving DecidableEq

/-- JSON.stringify of the /config request body for mode m. -/
def configBody (m : Mode) : String :=
  "\x7b\"config_aggressive\":\"" ++ modeString m ++ "\"\x7d"

/-- The fixed base address of the control endpoints. -/
def controlBaseUrl : String := "http://localhost:8000"

/-- resetState(): guarded by isResetting; POSTs to /increment; a non-ok
response throws a RequestError with the status; any failure emits an
error notification; the finally block clears isResetting on every exit
path of the request.  Result: final state, emitted notifications, and the
requests issued during the call. -/
def resetState (o : FetchOutcome) (s : PanelState) :
    PanelState × List Emit × List Request :=
  if s.isResetting then (s, [], [])
  else
    let req : Request := ⟨"http://localhost:8000/increment", "POST", none⟩
    match o with
    | .success =>
        ({ s with isResetting := false }, [Emit.statusChanged s.isRunning], [req])
    | .httpFailure status =>
        ({ s with isResetting := false },
         [Emit.error ("Reset state failed: Reset failed: " ++ toString status)],
         [req])
    | .networkFailure msg =>
        ({ s with isResetting := false },
         [Emit.error ("Reset state failed: " ++ msg)], [req])

/-- toggleAggressiveMode(): guarded by isTogglingMode; computes the next
mode in the cycle, POSTs it to /config; the mode ref is assigned only
after a successful response; a failure emits an error notification and
leaves the mode unchanged; the finally block clears isTogglingMode. -/
def toggleAggressiveMode (o : FetchOutcome) (s : PanelState) :
    PanelState × List Emit × List Request :=
  if s.isTogglingMode then (s, [], [])
  else
    let newMode := nextMode s.aggressiveMode
    let req : Request :=
      ⟨"http://localhost:8000/config", "POST", some (configBody newMode)⟩
    match o with
    | .success =>
        ({ s with isTogglingMode := false, aggressiveMode := newMode },
         [Emit.statusChanged s.isRunning], [req])
    | .httpFailure status =>
        ({ s with isTogglingMode := false },
         [Emit.error
            ("Toggle aggressive mode failed: Config update failed: " ++
              toString status)],
         [req])
    | .networkFailure msg =>
        ({ s with isTogglingMode := false },
         [Emit.error ("Toggle aggressive mode failed: " ++ msg)], [req])

/-- setAggressiveMode(mode): no-op when a change is in flight or the
requested mode equals the current one; otherwise POSTs the mode to
/config with the same success/failure handling as the toggle. -/
def setAggressiveMode (m : Mode) (o : FetchOutcome) (s : PanelState) :
    PanelState × List Emit × List Request :=
  if s.isTogglingMode || s.aggressiveMode == m then (s, [], [])
  else
    let req : Request :=
      ⟨"http://localhost:8000/config", "POST", some (configBody m)⟩
    match o with
    | .success =>
        ({ s with isTogglingMode := false, aggressiveMode := m },
         [Emit.statusChanged s.isRunning], [req])
    | .httpFailure status =>
        ({ s with isTogglingMode := false },
         [Emit.error
            ("Set aggressive mode failed: Config update failed: " ++
              toString status)],
         [req])
    | .networkFailure msg =>
        ({ s with isTogglingMode := false },
         [Emit.error ("Set aggressive mode failed: " ++ msg)], [req])

/-- The Page Composer's fixed base address for the two streams. -/
def baseUrl : String := "http://192.168.66.120:8000"

/-- The frame-stream URL derived from baseUrl. -/
def frameStreamUrl : String := baseUrl ++ "/stream/frame"

/-- The metadata-stream URL derived from baseUrl. -/
def metadataStreamUrl : String := baseUrl ++ "/stream/metadata"



namespace VideoStream

theorem timerInv_initState : TimerInv initState :=
  ⟨Or.inl rfl, fun _ h => Option.noConfusion h⟩

theorem connInv_initState : ConnInv initState :=
  Or.inl rfl

theorem clearPending_pending_eq_nil {s : VideoState} (h : TimerInv s) :
    (clearPending s).pending = [] := by
  rcases h with ⟨h1, _⟩
  unfold clearPending
  cases ht : s.timeoutId with
  | none =>
      rcases h1 with h1 | ⟨t, d, ht', _⟩
      · simpa using h1
      · rw [ht] at ht'; exact Option.noConfusion ht'
  | some t =>
      rcases h1 with h1 | ⟨t', d, ht', hp⟩
      · simp [h1]
      · rw [ht] at ht'
        cases ht'
        simp [hp]

@[simp] theorem closeConn_pending (s : VideoState) :
    (closeConn s).pending = s.pending := by
  unfold closeConn; cases s.frameSource <;> rfl

@[simp] theorem closeConn_timeoutId (s : VideoState) :
    (closeConn s).timeoutId = s.timeoutId := by
  unfold closeConn; cases s.frameSource <;> rfl

@[simp] theorem closeConn_nextTimerId (s : VideoState) :
    (closeConn s).nextTimerId = s.nextTimerId := by
  unfold closeConn; cases s.frameSource <;> rfl

@[simp] theorem closeConn_frameSource (s : VideoState) :
    (closeConn s).frameSource = s.frameSource := by
  unfold closeConn; cases h : s.frameSource <;> simp [h]

@[simp] theorem clearPending_timeoutId (s : VideoState) :
    (clearPending s).timeoutId = s.timeoutId := by
  unfold clearPending; cases h : s.timeoutId <;> simp [h]

@[simp] theorem clearPending_nextTimerId (s : VideoState) :
    (clearPending s).nextTimerId = s.nextTimerId := by
  unfold clearPending; cases s.timeoutId <;> rfl

@[simp] theorem clearPending_openConns (s : VideoState) :
    (clearPending s).openConns = s.openConns := by
  unfold clearPending; cases s.timeoutId <;> rfl

@[simp] theorem clearPending_frameSource (s : VideoState) :
    (clearPending s).frameSource = s.frameSource := by
  unfold clearPending; cases s.timeoutId <;> rfl

theorem timerInv_of_fields {s s' : VideoState}
    (hp : s'.pending = s.pending) (ht : s'.timeoutId = s.timeoutId)
    (hn : s'.nextTimerId = s.nextTimerId) (h : TimerInv s) : TimerInv s' := by
  obtain ⟨h1, h2⟩ := h
  exact ⟨by rw [hp, ht]; exact h1, by rw [ht, hn]; exact h2⟩

theorem timerInv_schedule_clear (timeoutMs : Nat) {s : VideoState}
    (h : TimerInv s) : TimerInv (scheduleTimeout timeoutMs (clearPending s)) := by
  have hp := clearPending_pending_eq_nil h
  constructor
  · exact Or.inr ⟨(clearPending s).nextTimerId, timeoutMs, rfl,
      by simp [scheduleTimeout, hp]⟩
  · intro t ht
    simp only [scheduleTimeout, Option.some.injEq] at ht ⊢
    omega

theorem timerInv_startStream {s : VideoState} (h : TimerInv s) :
    TimerInv (startStream s).1 :=
  timerInv_of_fields (by simp [startStream]) (by simp [startStream])
    (by simp [startStream]) h

theorem timerInv_stopStream {s : VideoState} (h : TimerInv s) :
    TimerInv (stopStream s).1 := by
  have h2 : TimerInv { closeConn s with frameSource := none } :=
    timerInv_of_fields (by simp) (by simp) (by simp) h
  constructor
  · exact Or.inl (by simpa [stopStream] using clearPending_pending_eq_nil h2)
  · intro t ht
    simp [stopStream] at ht

theorem timerInv_onmessage (timeoutMs : Nat) (p : ParseResult) (b : Bool)
    {s : VideoState} (h : TimerInv s) : TimerInv (onmessage timeoutMs p b s).1 := by
  cases p with
  | ok frame =>
      cases b with
      | false => exact timerInv_schedule_clear timeoutMs h
      | true =>
          exact timerInv_schedule_clear timeoutMs
            (timerInv_of_fields rfl rfl rfl h)
  | err => exact timerInv_of_fields rfl rfl rfl h

theorem timerInv_fireTimer (t : Nat) {s : VideoState} (h : TimerInv s) :
    TimerInv (fireTimer t s).1 := by
  obtain ⟨h1, h2⟩ := h
  unfold fireTimer
  rcases h1 with h1 | ⟨t0, d, ht0, hp⟩
  · simp [h1]
    exact ⟨Or.inl h1, h2⟩
  · rcases Nat.decEq t0 t with hne | heq
    · simp [hp, hne]
      exact ⟨Or.inr ⟨t0, d, ht0, hp⟩, h2⟩
    · subst heq
      simp [hp]
      exact ⟨Or.inl rfl, h2⟩

theorem timerInv_vstep (timeoutMs : Nat) (s : VideoState) (e : VEvent)
    (h : TimerInv s) : TimerInv (vstep timeoutMs s e).1 := by
  cases e with
  | start => exact timerInv_startStream h
  | message p b => exact timerInv_onmessage timeoutMs p b h
  | transportError => exact timerInv_of_fields rfl rfl rfl h
  | openOk => exact timerInv_of_fields rfl rfl rfl h
  | timerFire t => exact timerInv_fireTimer t h
  | stop => exact timerInv_stopStream h
  | toggle =>
      unfold vstep toggleStream
      cases s.isRunning with
      | false => exact timerInv_startStream h
      | true => exact timerInv_stopStream h

theorem connInv_of_fields {s s' : VideoState}
    (ho : s'.openConns = s.openConns) (hf : s'.frameSource = s.frameSource)
    (h : ConnInv s) : ConnInv s' := by
  rcases h with h | ⟨c, hc, ho'⟩
  · exact Or.inl (ho.trans h)
  · exact Or.inr ⟨c, hf.trans hc, ho.trans ho'⟩

theorem closeConn_openConns_eq_nil {s : VideoState} (h : ConnInv s) :
    (closeConn s).openConns = [] := by
  unfold closeConn
  rcases h with h | ⟨c, hc, ho⟩
  · cases hf : s.frameSource <;> simp [h]
  · rw [hc]
    simp [ho]

theorem connInv_startStream {s : VideoState} (h : ConnInv s) :
    ConnInv (startStream s).1 := by
  unfold startStream
  exact Or.inr ⟨(closeConn s).nextConnId, rfl,
    by simp [closeConn_openConns_eq_nil h]⟩

theorem connInv_stopStream {s : VideoState} (h : ConnInv s) :
    ConnInv (stopStream s).1 := by
  unfold stopStream
  exact Or.inl (by simp [closeConn_openConns_eq_nil h])

theorem connInv_vstep (timeoutMs : Nat) (s : VideoState) (e : VEvent)
    (h : ConnInv s) : ConnInv (vstep timeoutMs s e).1 := by
  cases e with
  | start => exact connInv_startStream h
  | message p b =>
      cases p with
      | ok frame =>
          cases b <;>
            exact connInv_of_fields (by simp [vstep, onmessage, scheduleTimeout])
              (by simp [vstep, onmessage, scheduleTimeout]) h
      | err => exact connInv_of_fields rfl rfl h
  | transportError => exact connInv_of_fields rfl rfl h
  | openOk => exact connInv_of_fields rfl rfl h
  | timerFire t =>
      show ConnInv (fireTimer t s).1
      unfold fireTimer
      split
      · exact connInv_of_fields rfl rfl h
      · exact connInv_of_fields rfl rfl h
  | stop => exact connInv_stopStream h
  | toggle =>
      unfold vstep toggleStream
      cases s.isRunning with
      | false => exact connInv_startStream h
      | true => exact connInv_stopStream h

end VideoStream

namespace MetadataPanel

theorem mconnInv_initState : ConnInv initState :=
  Or.inl rfl

theorem mconnInv_of_fields {s s' : MetaState}
    (ho : s'.openConns = s.openConns) (hf : s'.metadataSource = s.metadataSource)
    (h : ConnInv s) : ConnInv s' := by
  rcases h with h | ⟨c, hc, ho'⟩
  · exact Or.inl (ho.trans h)
  · exact Or.inr ⟨c, hf.trans hc, ho.trans ho'⟩

theorem mcloseConn_openConns_eq_nil {s : MetaState} (h : ConnInv s) :
    (closeConn s).openConns = [] := by
  unfold closeConn
  rcases h with h | ⟨c, hc, ho⟩
  · cases hf : s.metadataSource <;> simp [h]
  · rw [hc]
    simp [ho]

theorem mconnInv_startStream {s : MetaState} (h : ConnInv s) :
    ConnInv (startStream s).1 := by
  unfold startStream
  exact Or.inr ⟨(closeConn s).nextConnId, rfl,
    by simp [mcloseConn_openConns_eq_nil h]⟩

theorem mconnInv_stopStream {s : MetaState} (h : ConnInv s) :
    ConnInv (stopStream s).1 := by
  unfold stopStream
  exact Or.inl (by simp [mcloseConn_openConns_eq_nil h])

theorem connInv_mstep (s : MetaState) (e : MEvent) (h : ConnInv s) :
    ConnInv (mstep s e).1 := by
  cases e with
  | start => exact mconnInv_startStream h
  | message p =>
      cases p with
      | some data => exact mconnInv_of_fields rfl rfl h
      | none => exact mconnInv_of_fields rfl rfl h
  | transportError => exact mconnInv_of_fields rfl rfl h
  | stop => exact mconnInv_stopStream h
  | toggle =>
      show ConnInv (toggleStream s).1
      unfold toggleStream
      cases s.isRunning with
      | false => exact mconnInv_startStream h
      | true => exact mconnInv_stopStream h

end MetadataPanel

namespace VideoStream

@[simp] theorem clearPending_hasLastFrame (s : VideoState) :
    (clearPending s).hasLastFrame = s.hasLastFrame := by
  unfold clearPending; cases h : s.timeoutId <;> simp [h]

@[simp] theorem clearPending_isVideoUnavailable (s : VideoState) :
    (clearPending s).isVideoUnavailable = s.isVideoUnavailable := by
  unfold clearPending; cases h : s.timeoutId <;> simp [h]

@[simp] theorem clearPending_isRunning (s : VideoState) :
    (clearPending s).isRunning = s.isRunning := by
  unfold clearPending; cases h : s.timeoutId <;> simp [h]

@[simp] theorem closeConn_nextConnId (s : VideoState) :
    (closeConn s).nextConnId = s.nextConnId := by
  unfold closeConn; cases h : s.frameSource <;> simp [h]

theorem startStream_openConns {s : VideoState} (h : ConnInv s) :
    (startStream s).1.openConns = [s.nextConnId] := by
  simp [startStream, closeConn_openConns_eq_nil h]

theorem timerInv_pending_length {s : VideoState} (h : TimerInv s) :
    s.pending.length ≤ 1 := by
  rcases h.1 with h1 | ⟨t, d, _, h1⟩ <;> simp [h1]

end VideoStream

namespace MetadataPanel

@[simp] theorem mcloseConn_nextConnId (s : MetaState) :
    (closeConn s).nextConnId = s.nextConnId := by
  unfold closeConn; cases h : s.metadataSource <;> simp [h]

theorem mstartStream_openConns {s : MetaState} (h : ConnInv s) :
    (startStream s).1.openConns = [s.nextConnId] := by
  simp [startStream, mcloseConn_openConns_eq_nil h]

end MetadataPanel

/-- C1: for the frame-stream consumer, the stale-timeout handle is either
unset or refers to the most recently scheduled timer, and at most one
pending staleness timer exists at any time: the timer invariant holds
initially and is preserved by every dispatched event (each inbound message
cancels the previously scheduled timer before scheduling a new one), and
under the invariant the pending-timer list has length at most one. -/
theorem video_stale_timer_invariant :
    VideoStream.TimerInv VideoStream.initState ∧
    (∀ (timeoutMs : Nat) (s : VideoState) (e : VEvent),
      VideoStream.TimerInv s → VideoStream.TimerInv (VideoStream.vstep timeoutMs s e).1) ∧
    (∀ s : VideoState, VideoStream.TimerInv s → s.pending.length ≤ 1) :=
  ⟨VideoStream.timerInv_initState,
   fun timeoutMs s e h => VideoStream.timerInv_vstep timeoutMs s e h,
   fun _ h => VideoStream.timerInv_pending_length h⟩

/-- Witness for C1: the invariant holds after the initial state processes a
well-formed frame message, and the pending-timer list has length at most
one there. -/
theorem video_stale_timer_invariant_witness :
    VideoStream.TimerInv
      (VideoStream.vstep 5000 VideoStream.initState
        (VEvent.message (ParseResult.ok "abc") true)).1 ∧
    (VideoStream.vstep 5000 VideoStream.initState
        (VEvent.message (ParseResult.ok "abc") true)).1.pending.length ≤ 1 :=
  ⟨video_stale_timer_invariant.2.1 5000 VideoStream.initState
      (VEvent.message (ParseResult.ok "abc") true) VideoStream.timerInv_initState,
   video_stale_timer_invariant.2.2 _
     (video_stale_timer_invariant.2.1 5000 VideoStream.initState
       (VEvent.message (ParseResult.ok "abc") true) VideoStream.timerInv_initState)⟩

/-- Counterexample to C2: a well-formed frame message processed while no
document element with id "frame" exists leaves the has-displayed flag
false, and leaves the video-unavailable flag true when it was true, so
the claimed unconditional post-state does not hold. -/
theorem frame_flags_not_set_without_element :
    (VideoStream.vstep 5000 VideoStream.initState
        (VEvent.message (ParseResult.ok "abc") false)).1.hasLastFrame = false ∧
    (VideoStream.vstep 5000
        { VideoStream.initState with isVideoUnavailable := true }
        (VEvent.message (ParseResult.ok "abc") false)).1.isVideoUnavailable = true :=
  ⟨rfl, rfl⟩

/-- C2 (amended): for every well-formed frame message processed while the
document element with id "frame" is present, after processing the
has-displayed flag is true, the video-unavailable flag is false, and the
staleness timer has been cancelled and rescheduled for timeoutMs
milliseconds (the stored handle is the freshly scheduled timer and it is
the only pending one, with delay timeoutMs). -/
theorem frame_message_with_element_updates (timeoutMs : Nat) (frame : String)
    (s : VideoState) (h : VideoStream.TimerInv s) :
    (VideoStream.vstep timeoutMs s
        (VEvent.message (ParseResult.ok frame) true)).1.hasLastFrame = true ∧
    (VideoStream.vstep timeoutMs s
        (VEvent.message (ParseResult.ok frame) true)).1.isVideoUnavailable = false ∧
    (VideoStream.vstep timeoutMs s
        (VEvent.message (ParseResult.ok frame) true)).1.timeoutId = some s.nextTimerId ∧
    (VideoStream.vstep timeoutMs s
        (VEvent.message (ParseResult.ok frame) true)).1.pending =
      [⟨s.nextTimerId, timeoutMs⟩] := by
  have hpend : (VideoStream.clearPending
      { s with displayedSrc := some ("data:image/jpeg;base64," ++ frame)
               hasLastFrame := true
               isVideoUnavailable := false }).pending = [] :=
    VideoStream.clearPending_pending_eq_nil
      (VideoStream.timerInv_of_fields rfl rfl rfl h)
  refine ⟨?_, ?_, ?_, ?_⟩ <;>
    simp [VideoStream.vstep, VideoStream.onmessage, VideoStream.scheduleTimeout,
      hpend]

/-- Witness for C2 (amended) at the initial state with timeout 5000. -/
theorem frame_message_with_element_updates_witness :
    (VideoStream.vstep 5000 VideoStream.initState
        (VEvent.message (ParseResult.ok "abc") true)).1.hasLastFrame = true ∧
    (VideoStream.vstep 5000 VideoStream.initState
        (VEvent.message (ParseResult.ok "abc") true)).1.isVideoUnavailable = false ∧
    (VideoStream.vstep 5000 VideoStream.initState
        (VEvent.message (ParseResult.ok "abc") true)).1.timeoutId =
      some VideoStream.initState.nextTimerId ∧
    (VideoStream.vstep 5000 VideoStream.initState
        (VEvent.message (ParseResult.ok "abc") true)).1.pending =
      [⟨VideoStream.initState.nextTimerId, 5000⟩] :=
  frame_message_with_element_updates 5000 "abc" VideoStream.initState
    VideoStream.timerInv_initState

/-- C3: for every malformed frame-stream payload, the onmessage handler
sets the video-unavailable flag and emits the parse-error notification,
and the connection is not closed: the full result is the input state with
only isVideoUnavailable set, so the running flag, the connection handle
and the set of open connections are unchanged. -/
theorem malformed_frame_payload_handling (timeoutMs : Nat) (b : Bool)
    (s : VideoState) :
    VideoStream.vstep timeoutMs s (VEvent.message ParseResult.err b) =
      ({ s with isVideoUnavailable := true },
       [Emit.error "Failed to parse frame data"]) ∧
    (VideoStream.vstep timeoutMs s (VEvent.message ParseResult.err b)).1.frameSource =
      s.frameSource ∧
    (VideoStream.vstep timeoutMs s (VEvent.message ParseResult.err b)).1.isRunning =
      s.isRunning ∧
    (VideoStream.vstep timeoutMs s (VEvent.message ParseResult.err b)).1.openConns =
      s.openConns :=
  ⟨rfl, rfl, rfl, rfl⟩

/-- C4: for both stream consumers, at most one connection is open at any
instant: the single-connection invariant holds initially and is preserved
by every dispatched event, and calling start on a state satisfying it
leaves exactly the newly opened connection open (the prior one having
been closed first). -/
theorem single_connection_per_consumer :
    VideoStream.ConnInv VideoStream.initState ∧
    (∀ (timeoutMs : Nat) (s : VideoState) (e : VEvent),
      VideoStream.ConnInv s → VideoStream.ConnInv (VideoStream.vstep timeoutMs s e).1) ∧
    (∀ s : VideoState, VideoStream.ConnInv s →
      (VideoStream.startStream s).1.openConns = [s.nextConnId] ∧
      (VideoStream.startStream s).1.frameSource = some s.nextConnId) ∧
    MetadataPanel.ConnInv MetadataPanel.initState ∧
    (∀ (s : MetaState) (e : MEvent),
      MetadataPanel.ConnInv s → MetadataPanel.ConnInv (MetadataPanel.mstep s e).1) ∧
    (∀ s : MetaState, MetadataPanel.ConnInv s →
      (MetadataPanel.startStream s).1.openConns = [s.nextConnId] ∧
      (MetadataPanel.startStream s).1.metadataSource = some s.nextConnId) :=
  ⟨VideoStream.connInv_initState,
   fun timeoutMs s e h => VideoStream.connInv_vstep timeoutMs s e h,
   fun s h => ⟨VideoStream.startStream_openConns h, by simp [VideoStream.startStream]⟩,
   MetadataPanel.mconnInv_initState,
   fun s e h => MetadataPanel.connInv_mstep s e h,
   fun s h => ⟨MetadataPanel.mstartStream_openConns h, by simp [MetadataPanel.startStream]⟩⟩

/-- Witness for C4: after starting each consumer from its initial state,
the invariant still holds and exactly the new connection is open. -/
theorem single_connection_per_consumer_witness :
    VideoStream.ConnInv (VideoStream.vstep 5000 VideoStream.initState VEvent.start).1 ∧
    (VideoStream.startStream VideoStream.initState).1.openConns =
      [VideoStream.initState.nextConnId] ∧
    MetadataPanel.ConnInv (MetadataPanel.mstep MetadataPanel.initState MEvent.start).1 ∧
    (MetadataPanel.startStream MetadataPanel.initState).1.openConns =
      [MetadataPanel.initState.nextConnId] :=
  ⟨single_connection_per_consumer.2.1 5000 VideoStream.initState VEvent.start
      VideoStream.connInv_initState,
   (single_connection_per_consumer.2.2.1 VideoStream.initState
      VideoStream.connInv_initState).1,
   single_connection_per_consumer.2.2.2.2.1 MetadataPanel.initState MEvent.start
      MetadataPanel.mconnInv_initState,
   (single_connection_per_consumer.2.2.2.2.2 MetadataPanel.initState
      MetadataPanel.mconnInv_initState).1⟩

/-- C5: toggleAggressiveMode advances the held mode cyclically and
deterministically idle to chasing to explosion to idle; when no change is
in flight, a successful request sets the mode to the next one in the
cycle, while a failed request (non-ok status or network failure) leaves
the held mode unchanged and emits an error notification. -/
theorem toggleAggressiveMode_cycles (s : PanelState)
    (h : s.isTogglingMode = false) :
    (nextMode Mode.idle = Mode.chasing ∧ nextMode Mode.chasing = Mode.explosion ∧
      nextMode Mode.explosion = Mode.idle) ∧
    (toggleAggressiveMode FetchOutcome.success s).1.aggressiveMode =
      nextMode s.aggressiveMode ∧
    (∀ status : Nat,
      (toggleAggressiveMode (FetchOutcome.httpFailure status) s).1.aggressiveMode =
        s.aggressiveMode ∧
      (toggleAggressiveMode (FetchOutcome.httpFailure status) s).2.1 =
        [Emit.error ("Toggle aggressive mode failed: Config update failed: " ++
          toString status)]) ∧
    (∀ msg : String,
      (toggleAggressiveMode (FetchOutcome.networkFailure msg) s).1.aggressiveMode =
        s.aggressiveMode ∧
      (toggleAggressiveMode (FetchOutcome.networkFailure msg) s).2.1 =
        [Emit.error ("Toggle aggressive mode failed: " ++ msg)]) := by
  refine ⟨by decide, ?_, ?_, ?_⟩
  · simp [toggleAggressiveMode, h]
  · intro status
    exact ⟨by simp [toggleAggressiveMode, h], by simp [toggleAggressiveMode, h]⟩
  · intro msg
    exact ⟨by simp [toggleAggressiveMode, h], by simp [toggleAggressiveMode, h]⟩

/-- Witness for C5 at a concrete idle state with no change in flight. -/
theorem toggleAggressiveMode_cycles_witness :
    (⟨Mode.idle, false, false, false⟩ : PanelState).isTogglingMode = false ∧
    (toggleAggressiveMode FetchOutcome.success
        (⟨Mode.idle, false, false, false⟩ : PanelState)).1.aggressiveMode =
      nextMode Mode.idle ∧
    (toggleAggressiveMode (FetchOutcome.httpFailure 500)
        (⟨Mode.idle, false, false, false⟩ : PanelState)).1.aggressiveMode =
      Mode.idle :=
  ⟨rfl,
   (toggleAggressiveMode_cycles ⟨Mode.idle, false, false, false⟩ rfl).2.1,
   ((toggleAggressiveMode_cycles ⟨Mode.idle, false, false, false⟩ rfl).2.2.1 500).1⟩

/-- C6: when no reset is in flight, resetState clears the in-flight flag
on every exit path (success, non-ok status, network failure), fails on a
non-success status with an error notification carrying the status code in
its human-readable message, and emits an error notification with the
underlying message on a network failure. -/
theorem resetState_error_handling (s : PanelState) (h : s.isResetting = false) :
    (∀ o : FetchOutcome, (resetState o s).1.isResetting = false) ∧
    (∀ status : Nat,
      (resetState (FetchOutcome.httpFailure status) s).2.1 =
        [Emit.error ("Reset state failed: Reset failed: " ++ toString status)]) ∧
    (∀ msg : String,
      (resetState (FetchOutcome.networkFailure msg) s).2.1 =
        [Emit.error ("Reset state failed: " ++ msg)]) := by
  refine ⟨?_, ?_, ?_⟩
  · intro o
    cases o <;> simp [resetState, h]
  · intro status
    simp [resetState, h]
  · intro msg
    simp [resetState, h]

/-- Witness for C6: against HTTP status 500 the notification message
carries "500" and the in-flight flag ends cleared. -/
theorem resetState_error_handling_witness :
    (⟨Mode.idle, false, false, false⟩ : PanelState).isResetting = false ∧
    (resetState (FetchOutcome.httpFailure 500)
        (⟨Mode.idle, false, false, false⟩ : PanelState)).1.isResetting = false ∧
    (resetState (FetchOutcome.httpFailure 500)
        (⟨Mode.idle, false, false, false⟩ : PanelState)).2.1 =
      [Emit.error ("Reset state failed: Reset failed: " ++ toString 500)] :=
  ⟨rfl,
   (resetState_error_handling ⟨Mode.idle, false, false, false⟩ rfl).1
     (FetchOutcome.httpFailure 500),
   (resetState_error_handling ⟨Mode.idle, false, false, false⟩ rfl).2.1 500⟩

/-- C7: setAggressiveMode is a no-op when the requested mode equals the
held one or a mode change is already in flight: the state is returned
unchanged, no notification is emitted and no request is issued. -/
theorem setAggressiveMode_noop (m : Mode) (o : FetchOutcome) (s : PanelState)
    (h : s.isTogglingMode = true ∨ s.aggressiveMode = m) :
    setAggressiveMode m o s = (s, [], []) := by
  rcases h with h | h <;> simp [setAggressiveMode, h]

/-- Witness for C7: requesting the mode already held is a no-op. -/
theorem setAggressiveMode_noop_witness :
    setAggressiveMode Mode.idle FetchOutcome.success
        (⟨Mode.idle, false, false, false⟩ : PanelState) =
      ((⟨Mode.idle, false, false, false⟩ : PanelState), [], []) :=
  setAggressiveMode_noop Mode.idle FetchOutcome.success
    ⟨Mode.idle, false, false, false⟩ (Or.inr rfl)

/-- C8: the metadata consumer's onmessage handler emits an error and
leaves the whole state, in particular the held snapshot, unchanged on a
malformed payload, and on a well-formed payload replaces the snapshot
wholesale and emits a data-received notification carrying the new
snapshot. -/
theorem metadata_message_handling (s : MetaState) :
    MetadataPanel.mstep s (MEvent.message none) =
      (s, [Emit.error "Failed to parse metadata"]) ∧
    (MetadataPanel.mstep s (MEvent.message none)).1.metadata = s.metadata ∧
    (∀ j : Json, MetadataPanel.mstep s (MEvent.message (some j)) =
      ({ s with metadata := some j }, [Emit.dataReceived j])) :=
  ⟨rfl, rfl, fun _ => rfl⟩

/-- C9: in the frame-stream onmessage handler, a well-formed message
updates the has-displayed flag and clears the video-unavailable flag only
when the document element with id "frame" exists: when it is absent both
flags are unchanged while the staleness timer is still cancelled and
rescheduled (the stored handle is the fresh timer and it is the only
pending one); when it is present the flags are set. -/
theorem frame_element_gates_flag_updates (timeoutMs : Nat) (frame : String)
    (s : VideoState) (h : VideoStream.TimerInv s) :
    ((VideoStream.vstep timeoutMs s
        (VEvent.message (ParseResult.ok frame) false)).1.hasLastFrame =
      s.hasLastFrame ∧
     (VideoStream.vstep timeoutMs s
        (VEvent.message (ParseResult.ok frame) false)).1.isVideoUnavailable =
      s.isVideoUnavailable ∧
     (VideoStream.vstep timeoutMs s
        (VEvent.message (ParseResult.ok frame) false)).1.timeoutId =
      some s.nextTimerId ∧
     (VideoStream.vstep timeoutMs s
        (VEvent.message (ParseResult.ok frame) false)).1.pending =
      [⟨s.nextTimerId, timeoutMs⟩]) ∧
    ((VideoStream.vstep timeoutMs s
        (VEvent.message (ParseResult.ok frame) true)).1.hasLastFrame = true ∧
     (VideoStream.vstep timeoutMs s
        (VEvent.message (ParseResult.ok frame) true)).1.isVideoUnavailable =
      false) := by
  have hpend : (VideoStream.clearPending s).pending = [] :=
    VideoStream.clearPending_pending_eq_nil h
  have hpend2 : (VideoStream.clearPending
      { s with displayedSrc := some ("data:image/jpeg;base64," ++ frame)
               hasLastFrame := true
               isVideoUnavailable := false }).pending = [] :=
    VideoStream.clearPending_pending_eq_nil
      (VideoStream.timerInv_of_fields rfl rfl rfl h)
  refine ⟨⟨?_, ?_, ?_, ?_⟩, ?_, ?_⟩ <;>
    simp [VideoStream.vstep, VideoStream.onmessage, VideoStream.scheduleTimeout,
      hpend, hpend2]

/-- Witness for C9 at the initial state: with the element absent the flags
keep their initial values while the timer is rescheduled; with it present
the flags are set. -/
theorem frame_element_gates_flag_updates_witness :
    ((VideoStream.vstep 5000 VideoStream.initState
        (VEvent.message (ParseResult.ok "abc") false)).1.hasLastFrame =
      VideoStream.initState.hasLastFrame ∧
     (VideoStream.vstep 5000 VideoStream.initState
        (VEvent.message (ParseResult.ok "abc") false)).1.isVideoUnavailable =
      VideoStream.initState.isVideoUnavailable ∧
     (VideoStream.vstep 5000 VideoStream.initState
        (VEvent.message (ParseResult.ok "abc") false)).1.timeoutId =
      some VideoStream.initState.nextTimerId ∧
     (VideoStream.vstep 5000 VideoStream.initState
        (VEvent.message (ParseResult.ok "abc") false)).1.pending =
      [⟨VideoStream.initState.nextTimerId, 5000⟩]) ∧
    ((VideoStream.vstep 5000 VideoStream.initState
        (VEvent.message (ParseResult.ok "abc") true)).1.hasLastFrame = true ∧
     (VideoStream.vstep 5000 VideoStream.initState
        (VEvent.message (ParseResult.ok "abc") true)).1.isVideoUnavailable =
      false) :=
  frame_element_gates_flag_updates 5000 "abc" VideoStream.initState
    VideoStream.timerInv_initState

/-- C10: every request a control operation issues targets the fixed base
address controlBaseUrl ("http://localhost:8000") — /increment for
resetState and /config for the mode operations — while the Page Composer
derives both stream URLs from the distinct base address baseUrl
("http://192.168.66.120:8000"). -/
theorem control_requests_fixed_base :
    (∀ (o : FetchOutcome) (s : PanelState),
      ((resetState o s).2.2).all
        (fun r => r.url == controlBaseUrl ++ "/increment") = true) ∧
    (∀ (o : FetchOutcome) (s : PanelState),
      ((toggleAggressiveMode o s).2.2).all
        (fun r => r.url == controlBaseUrl ++ "/config") = true) ∧
    (∀ (m : Mode) (o : FetchOutcome) (s : PanelState),
      ((setAggressiveMode m o s).2.2).all
        (fun r => r.url == controlBaseUrl ++ "/config") = true) ∧
    frameStreamUrl = baseUrl ++ "/stream/frame" ∧
    metadataStreamUrl = baseUrl ++ "/stream/metadata" ∧
    controlBaseUrl ≠ baseUrl := by
  refine ⟨?_, ?_, ?_, rfl, rfl, by decide⟩
  · intro o s
    unfold resetState
    split
    · rfl
    · cases o <;> rfl
  · intro o s
    unfold toggleAggressiveMode
    split
    · rfl
    · cases o <;> rfl
  · intro m o s
    unfold setAggressiveMode
    split
    · rfl
    · cases o <;> rfl
